import Mathlib

/-!
Shallow embedding of `swipe-events.js` (v1.1, `src/docs/swipe-events.js`).

The library keeps six mutable session variables (`originX`, `originY`,
`lastX`, `lastY`, `firstEvent`, `lastEvent`), updates them in four touch
listeners (`touchstart`, `touchmove`, `touchend`, `touchcancel`) and
publishes one telemetry record per touch event via `fireSwipeEvent`.

Coordinates and timestamps are modelled as rationals.  JavaScript division
can produce `NaN` and `Infinity`, and the code guards quotients with the
falsy-coalescing idiom `(x / d) || 0`; we model this with an explicit
JavaScript-number type `JSNum` carrying the special values, `jsDiv` for
IEEE-style division of finite operands, and `orZero` for the `|| 0`
coalescing (which maps the falsy values `NaN` and `0` to `0` and keeps
everything else, including `Infinity`).  `Math.hypot` and `Math.atan2` are
modelled over the reals.
-/

/-- JavaScript number resulting from arithmetic on finite operands:
either a finite value, `Infinity`, `-Infinity`, or `NaN`. -/
inductive JSNum (α : Type) where
  | fin (x : α)
  | posInf
  | negInf
  | nan
  deriving DecidableEq

/-- JavaScript division `x / y` of finite operands: ordinary division when
`y ≠ 0`; for `y = 0` the result is `Infinity`, `-Infinity` or `NaN`
according to the sign of `x`. -/
def jsDiv {α : Type} [LinearOrderedField α] (x y : α) : JSNum α :=
  if y = 0 then
    if 0 < x then JSNum.posInf
    else if x < 0 then JSNum.negInf
    else JSNum.nan
  else JSNum.fin (x / y)

/-- The JavaScript falsy-coalescing guard `v || 0`: `NaN` (falsy) becomes
`0`; every other value (including `Infinity`, which is truthy) is kept.
A finite `0` is falsy too, but coalescing it to `0` is the identity. -/
def orZero {α : Type} [Zero α] : JSNum α → JSNum α
  | JSNum.nan => JSNum.fin 0
  | v => v

/-- `Math.hypot x y` for two arguments. -/
noncomputable def hypot (x y : ℝ) : ℝ :=
  Real.sqrt (x ^ 2 + y ^ 2)

/-- `Math.atan2 y x`, the angle of the point `(x, y)` in `(-π, π]`,
written piecewise through `Real.arctan` exactly as IEEE `atan2` behaves
on arguments without negative zero. -/
noncomputable def atan2 (y x : ℝ) : ℝ :=
  if 0 < x then Real.arctan (y / x)
  else if x < 0 then
    if 0 ≤ y then Real.arctan (y / x) + Real.pi
    else Real.arctan (y / x) - Real.pi
  else
    if 0 < y then Real.pi / 2
    else if y < 0 then -(Real.pi / 2)
    else 0

/-- The four touch event kinds consumed by the library. -/
inductive EventType where
  | touchstart
  | touchmove
  | touchend
  | touchcancel
  deriving DecidableEq

/-- The library's mutable gesture session state: the six script-level
variables `originX`, `originY`, `lastX`, `lastY`, `firstEvent`,
`lastEvent`. -/
structure Session where
  originX : ℚ
  originY : ℚ
  lastX : ℚ
  lastY : ℚ
  firstEvent : ℚ
  lastEvent : ℚ
  deriving DecidableEq

/-- The published telemetry record (the `detail` object of the dispatched
`swipe` event).  Fields computed by JavaScript division carry `JSNum`;
fields computed through `Math.hypot`/`Math.atan2` are real-valued. -/
structure SwipeDetail where
  event : EventType
  eventTime : ℚ
  duration : ℚ
  initial : Bool
  ongoing : Bool
  cardinal4 : String
  cardinal8 : String
  theta : ℝ
  originX : ℚ
  originY : ℚ
  currentX : ℚ
  currentY : ℚ
  totalDistanceX : ℚ
  totalDistanceY : ℚ
  totalDistance : ℝ
  latestDistanceX : ℚ
  latestDistanceY : ℚ
  latestDistance : ℝ
  overallSpeedX : JSNum ℚ
  overallSpeedY : JSNum ℚ
  overallSpeed : JSNum ℝ
  latestSpeedX : JSNum ℚ
  latestSpeedY : JSNum ℚ
  latestSpeed : JSNum ℝ

/-- `fireSwipeEvent(currentX, currentY, eventTime, e)`: computes the
telemetry record from the session state and the current point, time and
event kind, mirroring the source line by line. -/
noncomputable def fireSwipeEvent (s : Session) (currentX currentY eventTime : ℚ)
    (etype : EventType) : SwipeDetail :=
  let initial := etype == EventType.touchstart
  let ongoing := initial || etype == EventType.touchmove
  let totalChangeInX := currentX - s.originX
  let totalChangeInY := currentY - s.originY
  let totalDistanceX := |totalChangeInX|
  let totalDistanceY := |totalChangeInY|
  let totalDistance := hypot (totalDistanceX : ℝ) (totalDistanceY : ℝ)
  let latestDistanceX := |currentX - s.lastX|
  let latestDistanceY := |currentY - s.lastY|
  let latestDistance := hypot (latestDistanceX : ℝ) (latestDistanceY : ℝ)
  let duration := eventTime - s.firstEvent
  let overallSpeedX := orZero (jsDiv totalDistanceX duration)
  let overallSpeedY := orZero (jsDiv totalDistanceY duration)
  let overallSpeed := orZero (jsDiv totalDistance (duration : ℝ))
  let millisSinceLastEvent := eventTime - s.lastEvent
  let latestSpeedX := orZero (jsDiv latestDistanceX millisSinceLastEvent)
  let latestSpeedY := orZero (jsDiv latestDistanceY millisSinceLastEvent)
  let latestSpeed := orZero (jsDiv latestDistance (millisSinceLastEvent : ℝ))
  let horizontalDir := if s.originX > currentX then "W" else "E"
  let verticalDir := if s.originY > currentY then "N" else "S"
  let tangent := atan2 (totalDistanceY : ℝ) (totalDistanceX : ℝ) * (180 / Real.pi)
  let cardinal4 := if totalDistanceX > totalDistanceY then horizontalDir else verticalDir
  let cardinal8 :=
    if 22.5 < tangent ∧ tangent < 67.5 then verticalDir ++ horizontalDir else cardinal4
  let radians := atan2 (totalChangeInY : ℝ) (totalChangeInX : ℝ)
  let theta := (if radians < 0 then radians + 2 * Real.pi else radians) * (180 / Real.pi)
  { event := etype
    eventTime := eventTime
    duration := duration
    initial := initial
    ongoing := ongoing
    cardinal4 := cardinal4
    cardinal8 := cardinal8
    theta := theta
    originX := s.originX
    originY := s.originY
    currentX := currentX
    currentY := currentY
    totalDistanceX := totalDistanceX
    totalDistanceY := totalDistanceY
    totalDistance := totalDistance
    latestDistanceX := latestDistanceX
    latestDistanceY := latestDistanceY
    latestDistance := latestDistance
    overallSpeedX := overallSpeedX
    overallSpeedY := overallSpeedY
    overallSpeed := overallSpeed
    latestSpeedX := latestSpeedX
    latestSpeedY := latestSpeedY
    latestSpeed := latestSpeed }

/-- One raw input transition: an event kind with the point carried by
`changedTouches[0]` and the `Date.now()` arrival timestamp. -/
structure Transition where
  kind : EventType
  x : ℚ
  y : ℚ
  t : ℚ
  deriving DecidableEq

/-- The four touch listeners.  `touchstart` overwrites all six session
variables before firing; `touchmove` fires, then updates `lastX`, `lastY`,
`lastEvent`; `touchend` and `touchcancel` fire with the stored `lastX`,
`lastY` (ignoring the event's own coordinates) and update nothing. -/
noncomputable def dispatchTouch (s : Session) (tr : Transition) : Session × SwipeDetail :=
  match tr.kind with
  | EventType.touchstart =>
      let s' : Session :=
        { originX := tr.x, originY := tr.y, lastX := tr.x, lastY := tr.y,
          firstEvent := tr.t, lastEvent := tr.t }
      (s', fireSwipeEvent s' tr.x tr.y tr.t EventType.touchstart)
  | EventType.touchmove =>
      ({ s with lastX := tr.x, lastY := tr.y, lastEvent := tr.t },
       fireSwipeEvent s tr.x tr.y tr.t EventType.touchmove)
  | EventType.touchend =>
      (s, fireSwipeEvent s s.lastX s.lastY tr.t EventType.touchend)
  | EventType.touchcancel =>
      (s, fireSwipeEvent s s.lastX s.lastY tr.t EventType.touchcancel)

/-- The session state after a sequence of transitions. -/
noncomputable def runTouches (s : Session) (l : List Transition) : Session :=
  l.foldl (fun s tr => (dispatchTouch s tr).1) s

/-- The verbose-echo flag (`logEvents`), the only state of the public
control surface. -/
structure LogState where
  logEvents : Bool
  deriving DecidableEq

/-- Initial state: `let logEvents = false`. -/
def initialLogState : LogState := { logEvents := false }

/-- `SwipeEvents.telemetryLoggingEnabled()`: returns the flag, state
unchanged. -/
def telemetryLoggingEnabled (s : LogState) : Bool × LogState :=
  (s.logEvents, s)

/-- `SwipeEvents.toggleTelemetryLogging()`: flips the flag and returns the
new value. -/
def toggleTelemetryLogging (s : LogState) : Bool × LogState :=
  (!s.logEvents, { logEvents := !s.logEvents })

/-! ### Projection lemmas for `fireSwipeEvent` -/

section FireSwipeEventFields

variable (s : Session) (x y t : ℚ) (k : EventType)

@[simp] lemma fireSwipeEvent_event : (fireSwipeEvent s x y t k).event = k := rfl

@[simp] lemma fireSwipeEvent_eventTime : (fireSwipeEvent s x y t k).eventTime = t := rfl

@[simp] lemma fireSwipeEvent_duration :
    (fireSwipeEvent s x y t k).duration = t - s.firstEvent := rfl

@[simp] lemma fireSwipeEvent_initial :
    (fireSwipeEvent s x y t k).initial = (k == EventType.touchstart) := rfl

@[simp] lemma fireSwipeEvent_ongoing :
    (fireSwipeEvent s x y t k).ongoing =
      ((k == EventType.touchstart) || (k == EventType.touchmove)) := rfl

@[simp] lemma fireSwipeEvent_originX : (fireSwipeEvent s x y t k).originX = s.originX := rfl

@[simp] lemma fireSwipeEvent_originY : (fireSwipeEvent s x y t k).originY = s.originY := rfl

@[simp] lemma fireSwipeEvent_currentX : (fireSwipeEvent s x y t k).currentX = x := rfl

@[simp] lemma fireSwipeEvent_currentY : (fireSwipeEvent s x y t k).currentY = y := rfl

@[simp] lemma fireSwipeEvent_totalDistanceX :
    (fireSwipeEvent s x y t k).totalDistanceX = |x - s.originX| := rfl

@[simp] lemma fireSwipeEvent_totalDistanceY :
    (fireSwipeEvent s x y t k).totalDistanceY = |y - s.originY| := rfl

@[simp] lemma fireSwipeEvent_totalDistance :
    (fireSwipeEvent s x y t k).totalDistance =
      hypot ((|x - s.originX| : ℚ) : ℝ) ((|y - s.originY| : ℚ) : ℝ) := rfl

@[simp] lemma fireSwipeEvent_latestDistanceX :
    (fireSwipeEvent s x y t k).latestDistanceX = |x - s.lastX| := rfl

@[simp] lemma fireSwipeEvent_latestDistanceY :
    (fireSwipeEvent s x y t k).latestDistanceY = |y - s.lastY| := rfl

@[simp] lemma fireSwipeEvent_latestDistance :
    (fireSwipeEvent s x y t k).latestDistance =
      hypot ((|x - s.lastX| : ℚ) : ℝ) ((|y - s.lastY| : ℚ) : ℝ) := rfl

@[simp] lemma fireSwipeEvent_overallSpeedX :
    (fireSwipeEvent s x y t k).overallSpeedX =
      orZero (jsDiv |x - s.originX| (t - s.firstEvent)) := rfl

@[simp] lemma fireSwipeEvent_overallSpeedY :
    (fireSwipeEvent s x y t k).overallSpeedY =
      orZero (jsDiv |y - s.originY| (t - s.firstEvent)) := rfl

@[simp] lemma fireSwipeEvent_overallSpeed :
    (fireSwipeEvent s x y t k).overallSpeed =
      orZero (jsDiv (hypot ((|x - s.originX| : ℚ) : ℝ) ((|y - s.originY| : ℚ) : ℝ))
        ((t - s.firstEvent : ℚ) : ℝ)) := rfl

@[simp] lemma fireSwipeEvent_latestSpeedX :
    (fireSwipeEvent s x y t k).latestSpeedX =
      orZero (jsDiv |x - s.lastX| (t - s.lastEvent)) := rfl

@[simp] lemma fireSwipeEvent_latestSpeedY :
    (fireSwipeEvent s x y t k).latestSpeedY =
      orZero (jsDiv |y - s.lastY| (t - s.lastEvent)) := rfl

@[simp] lemma fireSwipeEvent_latestSpeed :
    (fireSwipeEvent s x y t k).latestSpeed =
      orZero (jsDiv (hypot ((|x - s.lastX| : ℚ) : ℝ) ((|y - s.lastY| : ℚ) : ℝ))
        ((t - s.lastEvent : ℚ) : ℝ)) := rfl

@[simp] lemma fireSwipeEvent_cardinal4 :
    (fireSwipeEvent s x y t k).cardinal4 =
      if |x - s.originX| > |y - s.originY|
      then (if s.originX > x then "W" else "E")
      else (if s.originY > y then "N" else "S") := rfl

@[simp] lemma fireSwipeEvent_cardinal8 :
    (fireSwipeEvent s x y t k).cardinal8 =
      if 22.5 < atan2 ((|y - s.originY| : ℚ) : ℝ) ((|x - s.originX| : ℚ) : ℝ) * (180 / Real.pi) ∧
           atan2 ((|y - s.originY| : ℚ) : ℝ) ((|x - s.originX| : ℚ) : ℝ) * (180 / Real.pi) < 67.5
      then (if s.originY > y then "N" else "S") ++ (if s.originX > x then "W" else "E")
      else if |x - s.originX| > |y - s.originY|
        then (if s.originX > x then "W" else "E")
        else (if s.originY > y then "N" else "S") := rfl

@[simp] lemma fireSwipeEvent_theta :
    (fireSwipeEvent s x y t k).theta =
      (if atan2 ((y - s.originY : ℚ) : ℝ) ((x - s.originX : ℚ) : ℝ) < 0
       then atan2 ((y - s.originY : ℚ) : ℝ) ((x - s.originX : ℚ) : ℝ) + 2 * Real.pi
       else atan2 ((y - s.originY : ℚ) : ℝ) ((x - s.originX : ℚ) : ℝ)) * (180 / Real.pi) := rfl

end FireSwipeEventFields

/-! ### Division-guard lemmas -/

lemma orZero_ne_nan {α : Type} [Zero α] (v : JSNum α) : orZero v ≠ JSNum.nan := by
  cases v <;> simp [orZero]

lemma jsDiv_zero_left {α : Type} [LinearOrderedField α] (y : α) :
    orZero (jsDiv (0 : α) y) = JSNum.fin 0 := by
  by_cases hy : y = 0 <;> simp [jsDiv, hy, orZero]

lemma jsDiv_pos_zero {α : Type} [LinearOrderedField α] {x : α} (hx : 0 < x) :
    orZero (jsDiv x (0 : α)) = JSNum.posInf := by
  simp [jsDiv, hx, orZero]

lemma orZero_jsDiv_ne_negInf {α : Type} [LinearOrderedField α] {x : α} (hx : 0 ≤ x) (y : α) :
    orZero (jsDiv x y) ≠ JSNum.negInf := by
  by_cases hy : y = 0
  · rcases lt_or_eq_of_le hx with h | h
    · simp [jsDiv, hy, h, orZero]
    · simp [jsDiv, hy, ← h, orZero]
  · simp [jsDiv, hy, orZero]

/-! ### `atan2` range and `theta` normalization -/

lemma neg_pi_lt_atan2 (y x : ℝ) : -Real.pi < atan2 y x := by
  have hπ := Real.pi_pos
  have h₁ := Real.neg_pi_div_two_lt_arctan (y / x)
  have h₂ := Real.arctan_lt_pi_div_two (y / x)
  unfold atan2
  by_cases hx : 0 < x
  · simp only [hx, if_true]
    linarith
  · simp only [hx, if_false]
    by_cases hx' : x < 0
    · simp only [hx', if_true]
      by_cases hy : 0 ≤ y
      · simp only [hy, if_true]
        linarith
      · simp only [hy, if_false]
        have hypos : 0 < y / x := div_pos_iff.mpr (Or.inr ⟨lt_of_not_le hy, hx'⟩)
        have : Real.arctan 0 < Real.arctan (y / x) := Real.arctan_strictMono hypos
        rw [Real.arctan_zero] at this
        linarith
    · simp only [hx', if_false]
      by_cases hy : 0 < y
      · simp only [hy, if_true]; linarith
      · simp only [hy, if_false]
        by_cases hy' : y < 0
        · simp only [hy', if_true]; linarith
        · simp only [hy', if_false]; linarith

lemma atan2_le_pi (y x : ℝ) : atan2 y x ≤ Real.pi := by
  have hπ := Real.pi_pos
  have h₁ := Real.neg_pi_div_two_lt_arctan (y / x)
  have h₂ := Real.arctan_lt_pi_div_two (y / x)
  unfold atan2
  by_cases hx : 0 < x
  · simp only [hx, if_true]
    linarith
  · simp only [hx, if_false]
    by_cases hx' : x < 0
    · simp only [hx', if_true]
      by_cases hy : 0 ≤ y
      · simp only [hy, if_true]
        have hyx : y / x ≤ 0 := div_nonpos_iff.mpr (Or.inl ⟨hy, le_of_lt hx'⟩)
        have : Real.arctan (y / x) ≤ Real.arctan 0 := Real.arctan_strictMono.monotone hyx
        rw [Real.arctan_zero] at this
        linarith
      · simp only [hy, if_false]
        linarith
    · simp only [hx', if_false]
      by_cases hy : 0 < y
      · simp only [hy, if_true]; linarith
      · simp only [hy, if_false]
        by_cases hy' : y < 0
        · simp only [hy', if_true]; linarith
        · simp only [hy', if_false]; linarith

lemma theta_range (rad : ℝ) (h₁ : -Real.pi < rad) (h₂ : rad ≤ Real.pi) :
    0 ≤ (if rad < 0 then rad + 2 * Real.pi else rad) * (180 / Real.pi) ∧
      (if rad < 0 then rad + 2 * Real.pi else rad) * (180 / Real.pi) < 360 := by
  have hπ := Real.pi_pos
  have hcoef : 0 < 180 / Real.pi := by positivity
  have hrad : 0 ≤ (if rad < 0 then rad + 2 * Real.pi else rad) ∧
      (if rad < 0 then rad + 2 * Real.pi else rad) < 2 * Real.pi := by
    by_cases hr : rad < 0
    · simp only [hr, if_true]
      constructor <;> linarith
    · simp only [hr, if_false]
      constructor <;> linarith
  constructor
  · exact mul_nonneg hrad.1 (le_of_lt hcoef)
  · have h2π : (2 * Real.pi) * (180 / Real.pi) = 360 := by
      field_simp
      ring
    have := mul_lt_mul_of_pos_right hrad.2 hcoef
    rw [h2π] at this
    exact this

/-! ### Dispatcher unfolding lemmas -/

@[simp] lemma dispatchTouch_touchstart (s : Session) (x y t : ℚ) :
    dispatchTouch s ⟨EventType.touchstart, x, y, t⟩ =
      (⟨x, y, x, y, t, t⟩,
        fireSwipeEvent ⟨x, y, x, y, t, t⟩ x y t EventType.touchstart) := rfl

@[simp] lemma dispatchTouch_touchmove (s : Session) (x y t : ℚ) :
    dispatchTouch s ⟨EventType.touchmove, x, y, t⟩ =
      ({ s with lastX := x, lastY := y, lastEvent := t },
        fireSwipeEvent s x y t EventType.touchmove) := rfl

@[simp] lemma dispatchTouch_touchend (s : Session) (x y t : ℚ) :
    dispatchTouch s ⟨EventType.touchend, x, y, t⟩ =
      (s, fireSwipeEvent s s.lastX s.lastY t EventType.touchend) := rfl

@[simp] lemma dispatchTouch_touchcancel (s : Session) (x y t : ℚ) :
    dispatchTouch s ⟨EventType.touchcancel, x, y, t⟩ =
      (s, fireSwipeEvent s s.lastX s.lastY t EventType.touchcancel) := rfl

@[simp] lemma runTouches_nil (s : Session) : runTouches s [] = s := rfl

lemma runTouches_cons (s : Session) (tr : Transition) (l : List Transition) :
    runTouches s (tr :: l) = runTouches (dispatchTouch s tr).1 l := rfl

lemma dispatchTouch_preserves_origin (s : Session) (tr : Transition)
    (h : tr.kind ≠ EventType.touchstart) :
    (dispatchTouch s tr).1.originX = s.originX ∧
      (dispatchTouch s tr).1.originY = s.originY ∧
      (dispatchTouch s tr).1.firstEvent = s.firstEvent := by
  obtain ⟨k, x, y, t⟩ := tr
  cases k
  · exact absurd rfl h
  · exact ⟨rfl, rfl, rfl⟩
  · exact ⟨rfl, rfl, rfl⟩
  · exact ⟨rfl, rfl, rfl⟩

lemma runTouches_preserves_origin :
    ∀ (l : List Transition) (s : Session),
      (∀ tr ∈ l, tr.kind ≠ EventType.touchstart) →
      (runTouches s l).originX = s.originX ∧ (runTouches s l).originY = s.originY ∧
        (runTouches s l).firstEvent = s.firstEvent := by
  intro l
  induction l with
  | nil => intro s _; exact ⟨rfl, rfl, rfl⟩
  | cons tr l ih =>
      intro s h
      have h1 := dispatchTouch_preserves_origin s tr (h tr (by simp))
      have h2 := ih (dispatchTouch s tr).1 (fun tr' htr' => h tr' (by simp [htr']))
      rw [runTouches_cons]
      exact ⟨h2.1.trans h1.1, h2.2.1.trans h1.2.1, h2.2.2.trans h1.2.2⟩

/-! ### Claims -/

/-- C9: the verbose-echo flag starts `false`; `telemetryLoggingEnabled`
returns the current flag without changing state; `toggleTelemetryLogging`
flips the flag and returns the new value; two consecutive toggles restore
the state, the first toggle from the initial state returning `true` and
the second `false`. -/
theorem C9_toggle_control_surface (s : LogState) :
    initialLogState.logEvents = false ∧
    telemetryLoggingEnabled s = (s.logEvents, s) ∧
    (toggleTelemetryLogging s).1 = !s.logEvents ∧
    (toggleTelemetryLogging s).2.logEvents = !s.logEvents ∧
    (toggleTelemetryLogging (toggleTelemetryLogging s).2).2 = s ∧
    (toggleTelemetryLogging initialLogState).1 = true ∧
    (telemetryLoggingEnabled (toggleTelemetryLogging initialLogState).2).1 = true ∧
    (toggleTelemetryLogging (toggleTelemetryLogging initialLogState).2).1 = false := by
  obtain ⟨b⟩ := s
  cases b <;> simp [initialLogState, telemetryLoggingEnabled, toggleTelemetryLogging]

/-- C3: `originX/Y` and `firstEvent` never change across any sequence of
non-start transitions, and a start transition unconditionally overwrites
all six session fields with the start's point and timestamp. -/
theorem C3_origin_invariant (s : Session) (l : List Transition) (x y t : ℚ)
    (h : ∀ tr ∈ l, tr.kind ≠ EventType.touchstart) :
    ((runTouches s l).originX = s.originX ∧ (runTouches s l).originY = s.originY ∧
      (runTouches s l).firstEvent = s.firstEvent) ∧
    (dispatchTouch s ⟨EventType.touchstart, x, y, t⟩).1 =
      { originX := x, originY := y, lastX := x, lastY := y,
        firstEvent := t, lastEvent := t } := by
  exact ⟨runTouches_preserves_origin l s h, rfl⟩

/-- Witness for C3 at a concrete two-step non-start sequence. -/
theorem C3_origin_invariant_witness :
    ((runTouches ⟨1, 2, 3, 4, 5, 6⟩
        [⟨EventType.touchmove, 9, 9, 9⟩, ⟨EventType.touchend, 0, 0, 10⟩]).originX = 1 ∧
      (runTouches ⟨1, 2, 3, 4, 5, 6⟩
        [⟨EventType.touchmove, 9, 9, 9⟩, ⟨EventType.touchend, 0, 0, 10⟩]).originY = 2 ∧
      (runTouches ⟨1, 2, 3, 4, 5, 6⟩
        [⟨EventType.touchmove, 9, 9, 9⟩, ⟨EventType.touchend, 0, 0, 10⟩]).firstEvent = 5) ∧
    (dispatchTouch ⟨1, 2, 3, 4, 5, 6⟩ ⟨EventType.touchstart, 7, 8, 9⟩).1 =
      { originX := 7, originY := 8, lastX := 7, lastY := 8,
        firstEvent := 9, lastEvent := 9 } :=
  C3_origin_invariant ⟨1, 2, 3, 4, 5, 6⟩
    [⟨EventType.touchmove, 9, 9, 9⟩, ⟨EventType.touchend, 0, 0, 10⟩] 7 8 9 (by decide)

/-- C2 (amended): a move transition leaves `originX/Y` and `firstEvent`
untouched and, after the telemetry record is computed from the pre-update
state, sets `lastX/Y` to the transition's point and `lastEvent` to its
timestamp; an end or cancel transition leaves the entire session state
unchanged (in particular `lastEvent` keeps its old value). -/
theorem C2_session_update (s : Session) (x y t : ℚ) :
    (dispatchTouch s ⟨EventType.touchmove, x, y, t⟩).1 =
        { s with lastX := x, lastY := y, lastEvent := t } ∧
    (dispatchTouch s ⟨EventType.touchmove, x, y, t⟩).2 =
        fireSwipeEvent s x y t EventType.touchmove ∧
    (dispatchTouch s ⟨EventType.touchend, x, y, t⟩).1 = s ∧
    (dispatchTouch s ⟨EventType.touchcancel, x, y, t⟩).1 = s :=
  ⟨rfl, rfl, rfl, rfl⟩

/-- Counterexample to C2 as stated: after an end transition with
timestamp `7` on a session whose `lastEvent` is `0`, the session's
`lastEvent` is still `0`, not `7`, and `lastX` is not the event's
X coordinate. -/
theorem C2_counterexample :
    ¬ ((dispatchTouch ⟨0, 0, 0, 0, 0, 0⟩ ⟨EventType.touchend, 5, 5, 7⟩).1.lastEvent = 7 ∧
       (dispatchTouch ⟨0, 0, 0, 0, 0, 0⟩ ⟨EventType.touchend, 5, 5, 7⟩).1.lastX = 5) := by
  intro hc
  have h0 : (dispatchTouch ⟨0, 0, 0, 0, 0, 0⟩ ⟨EventType.touchend, 5, 5, 7⟩).1.lastEvent =
      (0 : ℚ) := rfl
  rw [h0] at hc
  exact absurd hc.1 (by norm_num)

@[simp] lemma hypot_zero : hypot 0 0 = 0 := by
  simp [hypot]

/-- C4: the record published for a start transition has all four
component distances equal to 0, total and latest Euclidean distances 0,
all six speed fields equal to the finite value 0 (never `NaN` or
`Infinity`), duration 0, `initial = true` and `ongoing = true`. -/
theorem C4_start_record (s : Session) (x y t : ℚ) :
    (dispatchTouch s ⟨EventType.touchstart, x, y, t⟩).2.totalDistanceX = 0 ∧
    (dispatchTouch s ⟨EventType.touchstart, x, y, t⟩).2.totalDistanceY = 0 ∧
    (dispatchTouch s ⟨EventType.touchstart, x, y, t⟩).2.latestDistanceX = 0 ∧
    (dispatchTouch s ⟨EventType.touchstart, x, y, t⟩).2.latestDistanceY = 0 ∧
    (dispatchTouch s ⟨EventType.touchstart, x, y, t⟩).2.totalDistance = 0 ∧
    (dispatchTouch s ⟨EventType.touchstart, x, y, t⟩).2.latestDistance = 0 ∧
    (dispatchTouch s ⟨EventType.touchstart, x, y, t⟩).2.overallSpeedX = JSNum.fin 0 ∧
    (dispatchTouch s ⟨EventType.touchstart, x, y, t⟩).2.overallSpeedY = JSNum.fin 0 ∧
    (dispatchTouch s ⟨EventType.touchstart, x, y, t⟩).2.overallSpeed = JSNum.fin 0 ∧
    (dispatchTouch s ⟨EventType.touchstart, x, y, t⟩).2.latestSpeedX = JSNum.fin 0 ∧
    (dispatchTouch s ⟨EventType.touchstart, x, y, t⟩).2.latestSpeedY = JSNum.fin 0 ∧
    (dispatchTouch s ⟨EventType.touchstart, x, y, t⟩).2.latestSpeed = JSNum.fin 0 ∧
    (dispatchTouch s ⟨EventType.touchstart, x, y, t⟩).2.duration = 0 ∧
    (dispatchTouch s ⟨EventType.touchstart, x, y, t⟩).2.initial = true ∧
    (dispatchTouch s ⟨EventType.touchstart, x, y, t⟩).2.ongoing = true ∧
    (dispatchTouch s ⟨EventType.touchstart, x, y, t⟩).2.originX = x ∧
    (dispatchTouch s ⟨EventType.touchstart, x, y, t⟩).2.originY = y ∧
    (dispatchTouch s ⟨EventType.touchstart, x, y, t⟩).2.currentX = x ∧
    (dispatchTouch s ⟨EventType.touchstart, x, y, t⟩).2.currentY = y := by
  simp [jsDiv_zero_left]

/-- C10: on an end or cancel transition the published `currentX/Y` are the
session's stored `lastX/Y` (the event's own coordinates are ignored), and
all latest distances and latest speeds are 0. -/
theorem C10_terminal_latest_zero (s : Session) (x y t : ℚ) :
    ((dispatchTouch s ⟨EventType.touchend, x, y, t⟩).2.currentX = s.lastX ∧
     (dispatchTouch s ⟨EventType.touchend, x, y, t⟩).2.currentY = s.lastY ∧
     (dispatchTouch s ⟨EventType.touchend, x, y, t⟩).2.latestDistanceX = 0 ∧
     (dispatchTouch s ⟨EventType.touchend, x, y, t⟩).2.latestDistanceY = 0 ∧
     (dispatchTouch s ⟨EventType.touchend, x, y, t⟩).2.latestDistance = 0 ∧
     (dispatchTouch s ⟨EventType.touchend, x, y, t⟩).2.latestSpeedX = JSNum.fin 0 ∧
     (dispatchTouch s ⟨EventType.touchend, x, y, t⟩).2.latestSpeedY = JSNum.fin 0 ∧
     (dispatchTouch s ⟨EventType.touchend, x, y, t⟩).2.latestSpeed = JSNum.fin 0) ∧
    ((dispatchTouch s ⟨EventType.touchcancel, x, y, t⟩).2.currentX = s.lastX ∧
     (dispatchTouch s ⟨EventType.touchcancel, x, y, t⟩).2.currentY = s.lastY ∧
     (dispatchTouch s ⟨EventType.touchcancel, x, y, t⟩).2.latestDistanceX = 0 ∧
     (dispatchTouch s ⟨EventType.touchcancel, x, y, t⟩).2.latestDistanceY = 0 ∧
     (dispatchTouch s ⟨EventType.touchcancel, x, y, t⟩).2.latestDistance = 0 ∧
     (dispatchTouch s ⟨EventType.touchcancel, x, y, t⟩).2.latestSpeedX = JSNum.fin 0 ∧
     (dispatchTouch s ⟨EventType.touchcancel, x, y, t⟩).2.latestSpeedY = JSNum.fin 0 ∧
     (dispatchTouch s ⟨EventType.touchcancel, x, y, t⟩).2.latestSpeed = JSNum.fin 0) := by
  simp [jsDiv_zero_left]

lemma hypot_nonneg (x y : ℝ) : 0 ≤ hypot x y :=
  Real.sqrt_nonneg _

/-- C8: in every published record, `totalDistance` is the Euclidean
`hypot` of `totalDistanceX/Y`, `latestDistance` is the `hypot` of
`latestDistanceX/Y`, and all six distance fields are non-negative. -/
theorem C8_distances (s : Session) (x y t : ℚ) (k : EventType) :
    (fireSwipeEvent s x y t k).totalDistance =
      hypot ((fireSwipeEvent s x y t k).totalDistanceX : ℝ)
        ((fireSwipeEvent s x y t k).totalDistanceY : ℝ) ∧
    (fireSwipeEvent s x y t k).latestDistance =
      hypot ((fireSwipeEvent s x y t k).latestDistanceX : ℝ)
        ((fireSwipeEvent s x y t k).latestDistanceY : ℝ) ∧
    0 ≤ (fireSwipeEvent s x y t k).totalDistanceX ∧
    0 ≤ (fireSwipeEvent s x y t k).totalDistanceY ∧
    0 ≤ (fireSwipeEvent s x y t k).totalDistance ∧
    0 ≤ (fireSwipeEvent s x y t k).latestDistanceX ∧
    0 ≤ (fireSwipeEvent s x y t k).latestDistanceY ∧
    0 ≤ (fireSwipeEvent s x y t k).latestDistance := by
  refine ⟨by simp, by simp, ?_, ?_, ?_, ?_, ?_, ?_⟩ <;>
    simp [abs_nonneg, hypot_nonneg]

/-- C5: `cardinal4` is the horizontal direction (`W` when
`originX > currentX`, else `E`) exactly when
`totalDistanceX > totalDistanceY`, and otherwise the vertical direction
(`N` when `originY > currentY`, else `S`); on an exact distance tie the
vertical direction wins, and `cardinal4` is always one of the four
cardinal letters. -/
theorem C5_cardinal4 (s : Session) (x y t : ℚ) (k : EventType) :
    ((fireSwipeEvent s x y t k).cardinal4 =
      if (fireSwipeEvent s x y t k).totalDistanceX > (fireSwipeEvent s x y t k).totalDistanceY
      then (if (fireSwipeEvent s x y t k).originX > (fireSwipeEvent s x y t k).currentX
            then "W" else "E")
      else (if (fireSwipeEvent s x y t k).originY > (fireSwipeEvent s x y t k).currentY
            then "N" else "S")) ∧
    ((fireSwipeEvent s x y t k).totalDistanceX = (fireSwipeEvent s x y t k).totalDistanceY →
      (fireSwipeEvent s x y t k).cardinal4 =
        (if (fireSwipeEvent s x y t k).originY > (fireSwipeEvent s x y t k).currentY
         then "N" else "S")) ∧
    ((fireSwipeEvent s x y t k).cardinal4 = "N" ∨ (fireSwipeEvent s x y t k).cardinal4 = "S" ∨
      (fireSwipeEvent s x y t k).cardinal4 = "E" ∨ (fireSwipeEvent s x y t k).cardinal4 = "W") := by
  refine ⟨by simp, ?_, ?_⟩
  · intro h
    simp only [fireSwipeEvent_totalDistanceX, fireSwipeEvent_totalDistanceY] at h
    simp [h, lt_irrefl]
  · by_cases h1 : |x - s.originX| > |y - s.originY| <;>
      by_cases h2 : s.originX > x <;>
      by_cases h3 : s.originY > y <;>
      simp [h1, h2, h3]

/-- Witness for C5: a tie (`move` to `(1,1)` from origin `(0,0)`) gives
the vertical direction `S`. -/
theorem C5_cardinal4_witness :
    (fireSwipeEvent ⟨0, 0, 0, 0, 0, 0⟩ 1 1 1 EventType.touchmove).totalDistanceX =
        (fireSwipeEvent ⟨0, 0, 0, 0, 0, 0⟩ 1 1 1 EventType.touchmove).totalDistanceY ∧
      (fireSwipeEvent ⟨0, 0, 0, 0, 0, 0⟩ 1 1 1 EventType.touchmove).cardinal4 =
        (if (⟨0, 0, 0, 0, 0, 0⟩ : Session).originY > (1 : ℚ) then "N" else "S") :=
  ⟨by simp, (C5_cardinal4 ⟨0, 0, 0, 0, 0, 0⟩ 1 1 1 EventType.touchmove).2.1 (by simp)⟩

/-- C1 (amended): no published speed field is ever `NaN` or `-Infinity`;
when a speed's denominator (`duration` for the overall speeds,
milliseconds since the last event for the latest speeds) is zero, the
field is the finite value `0` if the corresponding distance is zero (as
on the start transition) but `+Infinity` if that distance is positive. -/
theorem C1_speed_guard (s : Session) (x y t : ℚ) (k : EventType) :
    ((fireSwipeEvent s x y t k).overallSpeedX ≠ JSNum.nan ∧
     (fireSwipeEvent s x y t k).overallSpeedY ≠ JSNum.nan ∧
     (fireSwipeEvent s x y t k).overallSpeed ≠ JSNum.nan ∧
     (fireSwipeEvent s x y t k).latestSpeedX ≠ JSNum.nan ∧
     (fireSwipeEvent s x y t k).latestSpeedY ≠ JSNum.nan ∧
     (fireSwipeEvent s x y t k).latestSpeed ≠ JSNum.nan) ∧
    ((fireSwipeEvent s x y t k).overallSpeedX ≠ JSNum.negInf ∧
     (fireSwipeEvent s x y t k).overallSpeedY ≠ JSNum.negInf ∧
     (fireSwipeEvent s x y t k).overallSpeed ≠ JSNum.negInf ∧
     (fireSwipeEvent s x y t k).latestSpeedX ≠ JSNum.negInf ∧
     (fireSwipeEvent s x y t k).latestSpeedY ≠ JSNum.negInf ∧
     (fireSwipeEvent s x y t k).latestSpeed ≠ JSNum.negInf) ∧
    (t - s.firstEvent = 0 →
      ((fireSwipeEvent s x y t k).totalDistanceX = 0 →
        (fireSwipeEvent s x y t k).overallSpeedX = JSNum.fin 0) ∧
      (0 < (fireSwipeEvent s x y t k).totalDistanceX →
        (fireSwipeEvent s x y t k).overallSpeedX = JSNum.posInf) ∧
      ((fireSwipeEvent s x y t k).totalDistanceY = 0 →
        (fireSwipeEvent s x y t k).overallSpeedY = JSNum.fin 0) ∧
      (0 < (fireSwipeEvent s x y t k).totalDistanceY →
        (fireSwipeEvent s x y t k).overallSpeedY = JSNum.posInf) ∧
      ((fireSwipeEvent s x y t k).totalDistance = 0 →
        (fireSwipeEvent s x y t k).overallSpeed = JSNum.fin 0) ∧
      (0 < (fireSwipeEvent s x y t k).totalDistance →
        (fireSwipeEvent s x y t k).overallSpeed = JSNum.posInf)) ∧
    (t - s.lastEvent = 0 →
      ((fireSwipeEvent s x y t k).latestDistanceX = 0 →
        (fireSwipeEvent s x y t k).latestSpeedX = JSNum.fin 0) ∧
      (0 < (fireSwipeEvent s x y t k).latestDistanceX →
        (fireSwipeEvent s x y t k).latestSpeedX = JSNum.posInf) ∧
      ((fireSwipeEvent s x y t k).latestDistanceY = 0 →
        (fireSwipeEvent s x y t k).latestSpeedY = JSNum.fin 0) ∧
      (0 < (fireSwipeEvent s x y t k).latestDistanceY →
        (fireSwipeEvent s x y t k).latestSpeedY = JSNum.posInf) ∧
      ((fireSwipeEvent s x y t k).latestDistance = 0 →
        (fireSwipeEvent s x y t k).latestSpeed = JSNum.fin 0) ∧
      (0 < (fireSwipeEvent s x y t k).latestDistance →
        (fireSwipeEvent s x y t k).latestSpeed = JSNum.posInf)) := by
  refine ⟨⟨?_, ?_, ?_, ?_, ?_, ?_⟩, ⟨?_, ?_, ?_, ?_, ?_, ?_⟩, ?_, ?_⟩
  · simp only [fireSwipeEvent_overallSpeedX]; exact orZero_ne_nan _
  · simp only [fireSwipeEvent_overallSpeedY]; exact orZero_ne_nan _
  · simp only [fireSwipeEvent_overallSpeed]; exact orZero_ne_nan _
  · simp only [fireSwipeEvent_latestSpeedX]; exact orZero_ne_nan _
  · simp only [fireSwipeEvent_latestSpeedY]; exact orZero_ne_nan _
  · simp only [fireSwipeEvent_latestSpeed]; exact orZero_ne_nan _
  · simp only [fireSwipeEvent_overallSpeedX]
    exact orZero_jsDiv_ne_negInf (abs_nonneg _) _
  · simp only [fireSwipeEvent_overallSpeedY]
    exact orZero_jsDiv_ne_negInf (abs_nonneg _) _
  · simp only [fireSwipeEvent_overallSpeed]
    exact orZero_jsDiv_ne_negInf (hypot_nonneg _ _) _
  · simp only [fireSwipeEvent_latestSpeedX]
    exact orZero_jsDiv_ne_negInf (abs_nonneg _) _
  · simp only [fireSwipeEvent_latestSpeedY]
    exact orZero_jsDiv_ne_negInf (abs_nonneg _) _
  · simp only [fireSwipeEvent_latestSpeed]
    exact orZero_jsDiv_ne_negInf (hypot_nonneg _ _) _
  · intro hd
    refine ⟨?_, ?_, ?_, ?_, ?_, ?_⟩ <;> intro h0 <;>
      simp only [fireSwipeEvent_totalDistanceX, fireSwipeEvent_totalDistanceY,
        fireSwipeEvent_totalDistance] at h0 <;>
      push_cast at h0 <;>
      simp [hd, h0, jsDiv_zero_left, jsDiv_pos_zero]
  · intro hd
    refine ⟨?_, ?_, ?_, ?_, ?_, ?_⟩ <;> intro h0 <;>
      simp only [fireSwipeEvent_latestDistanceX, fireSwipeEvent_latestDistanceY,
        fireSwipeEvent_latestDistance] at h0 <;>
      push_cast at h0 <;>
      simp [hd, h0, jsDiv_zero_left, jsDiv_pos_zero]

/-- Witness for C1 (amended): a move to `(10,0)` in the same millisecond
as the start gives `overallSpeedX = Infinity` but `overallSpeedY = 0`. -/
theorem C1_speed_guard_witness :
    (fireSwipeEvent ⟨0, 0, 0, 0, 0, 0⟩ 10 0 0 EventType.touchmove).overallSpeedX =
        JSNum.posInf ∧
    (fireSwipeEvent ⟨0, 0, 0, 0, 0, 0⟩ 10 0 0 EventType.touchmove).overallSpeedY =
        JSNum.fin 0 :=
  ⟨((C1_speed_guard ⟨0, 0, 0, 0, 0, 0⟩ 10 0 0 EventType.touchmove).2.2.1
      (by norm_num)).2.1 (by simp),
   ((C1_speed_guard ⟨0, 0, 0, 0, 0, 0⟩ 10 0 0 EventType.touchmove).2.2.1
      (by norm_num)).2.2.1 (by simp)⟩

/-- Counterexample to C1 as stated: after `touchstart` at `(0,0)` at
`t = 0` and `touchmove` to `(10,0)` still at `t = 0` (two events in the
same millisecond), the published `duration` is `0` yet `overallSpeedX`
is `Infinity`, not `0`. -/
theorem C1_counterexample :
    (dispatchTouch (dispatchTouch ⟨0, 0, 0, 0, 0, 0⟩ ⟨EventType.touchstart, 0, 0, 0⟩).1
        ⟨EventType.touchmove, 10, 0, 0⟩).2.duration = 0 ∧
    (dispatchTouch (dispatchTouch ⟨0, 0, 0, 0, 0, 0⟩ ⟨EventType.touchstart, 0, 0, 0⟩).1
        ⟨EventType.touchmove, 10, 0, 0⟩).2.overallSpeedX = JSNum.posInf ∧
    (dispatchTouch (dispatchTouch ⟨0, 0, 0, 0, 0, 0⟩ ⟨EventType.touchstart, 0, 0, 0⟩).1
        ⟨EventType.touchmove, 10, 0, 0⟩).2.overallSpeedX ≠ JSNum.fin 0 := by
  refine ⟨by simp, ?_, ?_⟩ <;>
    simp [jsDiv, orZero]

/-- C6: `cardinal8` is the two-letter diagonal `verticalDir ++
horizontalDir` exactly when the first-quadrant angle
`atan2(totalDistanceY, totalDistanceX)` in degrees lies strictly between
22.5 and 67.5, and is `cardinal4` otherwise; the boundary values 22.5 and
67.5 fall back to `cardinal4`. -/
theorem C6_cardinal8 (s : Session) (x y t : ℚ) (k : EventType) :
    ((fireSwipeEvent s x y t k).cardinal8 =
        (if (fireSwipeEvent s x y t k).originY > (fireSwipeEvent s x y t k).currentY
         then "N" else "S") ++
        (if (fireSwipeEvent s x y t k).originX > (fireSwipeEvent s x y t k).currentX
         then "W" else "E") ↔
      (22.5 < atan2 ((fireSwipeEvent s x y t k).totalDistanceY : ℝ)
          ((fireSwipeEvent s x y t k).totalDistanceX : ℝ) * (180 / Real.pi) ∧
        atan2 ((fireSwipeEvent s x y t k).totalDistanceY : ℝ)
          ((fireSwipeEvent s x y t k).totalDistanceX : ℝ) * (180 / Real.pi) < 67.5)) ∧
    (¬ (22.5 < atan2 ((fireSwipeEvent s x y t k).totalDistanceY : ℝ)
          ((fireSwipeEvent s x y t k).totalDistanceX : ℝ) * (180 / Real.pi) ∧
        atan2 ((fireSwipeEvent s x y t k).totalDistanceY : ℝ)
          ((fireSwipeEvent s x y t k).totalDistanceX : ℝ) * (180 / Real.pi) < 67.5) →
      (fireSwipeEvent s x y t k).cardinal8 = (fireSwipeEvent s x y t k).cardinal4) ∧
    ((atan2 ((fireSwipeEvent s x y t k).totalDistanceY : ℝ)
          ((fireSwipeEvent s x y t k).totalDistanceX : ℝ) * (180 / Real.pi) = 22.5 ∨
      atan2 ((fireSwipeEvent s x y t k).totalDistanceY : ℝ)
          ((fireSwipeEvent s x y t k).totalDistanceX : ℝ) * (180 / Real.pi) = 67.5) →
      (fireSwipeEvent s x y t k).cardinal8 = (fireSwipeEvent s x y t k).cardinal4) := by
  simp only [fireSwipeEvent_cardinal8, fireSwipeEvent_cardinal4, fireSwipeEvent_totalDistanceX,
    fireSwipeEvent_totalDistanceY, fireSwipeEvent_originX, fireSwipeEvent_originY,
    fireSwipeEvent_currentX, fireSwipeEvent_currentY]
  by_cases hcond :
      (22.5 < atan2 ((|y - s.originY| : ℚ) : ℝ) ((|x - s.originX| : ℚ) : ℝ) * (180 / Real.pi) ∧
        atan2 ((|y - s.originY| : ℚ) : ℝ) ((|x - s.originX| : ℚ) : ℝ) * (180 / Real.pi) < 67.5)
  · rw [if_pos hcond]
    refine ⟨iff_of_true rfl hcond, fun hn => absurd hcond hn, fun hb => ?_⟩
    rcases hb with h | h
    · have h1 := hcond.1
      rw [h] at h1
      linarith
    · have h2 := hcond.2
      rw [h] at h2
      linarith
  · rw [if_neg hcond]
    refine ⟨iff_of_false ?_ hcond, fun _ => rfl, fun _ => rfl⟩
    by_cases h1 : |x - s.originX| > |y - s.originY| <;>
      by_cases h2 : s.originX > x <;>
      by_cases h3 : s.originY > y <;>
      simp [h1, h2, h3]

lemma atan2_of_neg_of_zero {y : ℝ} (hy : y < 0) : atan2 y 0 = -(Real.pi / 2) := by
  simp [atan2, hy, asymm hy, lt_irrefl]

lemma theta_up_value : (-(Real.pi / 2) + 2 * Real.pi) * (180 / Real.pi) = 270 := by
  have hπ : Real.pi ≠ 0 := Real.pi_ne_zero
  field_simp
  ring

/-- C7: `theta` is `atan2` of the signed displacements from the origin,
normalized into `[0, 360)` degrees by adding a full turn to negative
angles; a pure upward displacement (`currentX = originX`,
`currentY < originY`) yields `theta = 270`. -/
theorem C7_theta (s : Session) (x y t : ℚ) (k : EventType) :
    ((fireSwipeEvent s x y t k).theta =
      (if atan2 (((fireSwipeEvent s x y t k).currentY : ℝ) -
              ((fireSwipeEvent s x y t k).originY : ℝ))
            (((fireSwipeEvent s x y t k).currentX : ℝ) -
              ((fireSwipeEvent s x y t k).originX : ℝ)) < 0
       then atan2 (((fireSwipeEvent s x y t k).currentY : ℝ) -
              ((fireSwipeEvent s x y t k).originY : ℝ))
            (((fireSwipeEvent s x y t k).currentX : ℝ) -
              ((fireSwipeEvent s x y t k).originX : ℝ)) + 2 * Real.pi
       else atan2 (((fireSwipeEvent s x y t k).currentY : ℝ) -
              ((fireSwipeEvent s x y t k).originY : ℝ))
            (((fireSwipeEvent s x y t k).currentX : ℝ) -
              ((fireSwipeEvent s x y t k).originX : ℝ))) * (180 / Real.pi)) ∧
    (0 ≤ (fireSwipeEvent s x y t k).theta ∧ (fireSwipeEvent s x y t k).theta < 360) ∧
    ((fireSwipeEvent s x y t k).currentX = (fireSwipeEvent s x y t k).originX →
      (fireSwipeEvent s x y t k).currentY < (fireSwipeEvent s x y t k).originY →
      (fireSwipeEvent s x y t k).theta = 270) := by
  refine ⟨?_, ?_, ?_⟩
  · simp only [fireSwipeEvent_theta, fireSwipeEvent_currentX, fireSwipeEvent_currentY,
      fireSwipeEvent_originX, fireSwipeEvent_originY]
    push_cast
    rfl
  · simp only [fireSwipeEvent_theta]
    exact theta_range _ (neg_pi_lt_atan2 _ _) (atan2_le_pi _ _)
  · intro hx hy
    simp only [fireSwipeEvent_currentX, fireSwipeEvent_currentY, fireSwipeEvent_originX,
      fireSwipeEvent_originY] at hx hy
    have hx0 : ((x - s.originX : ℚ) : ℝ) = 0 := by
      rw [sub_eq_zero.mpr hx]
      exact Rat.cast_zero
    have hy0 : ((y - s.originY : ℚ) : ℝ) < 0 := by
      rw [← Rat.cast_zero]
      exact_mod_cast sub_neg.mpr hy
    simp only [fireSwipeEvent_theta, hx0]
    rw [atan2_of_neg_of_zero hy0]
    have hneg : -(Real.pi / 2) < 0 := by
      have := Real.pi_pos
      linarith
    rw [if_pos hneg]
    exact theta_up_value

/-- Witness for C7: `move` to `(0,-50)` from origin `(0,0)` (straight up
on screen) has `theta = 270`. -/
theorem C7_theta_witness :
    (fireSwipeEvent ⟨0, 0, 0, 0, 0, 0⟩ 0 (-50) 50 EventType.touchmove).theta = 270 :=
  (C7_theta ⟨0, 0, 0, 0, 0, 0⟩ 0 (-50) 50 EventType.touchmove).2.2 (by norm_num) (by norm_num)

/-- Witness for C6: a purely horizontal move (tangent angle 0 degrees,
outside the open interval) makes `cardinal8` fall back to `cardinal4`. -/
theorem C6_cardinal8_witness :
    (fireSwipeEvent ⟨0, 0, 0, 0, 0, 0⟩ 1 0 1 EventType.touchmove).cardinal8 =
      (fireSwipeEvent ⟨0, 0, 0, 0, 0, 0⟩ 1 0 1 EventType.touchmove).cardinal4 :=
  (C6_cardinal8 ⟨0, 0, 0, 0, 0, 0⟩ 1 0 1 EventType.touchmove).2.1 (by norm_num [atan2])
